import Mathlib

/-!
Verification of the orthos2 remote-power / cobbler provisioning layer.

The definitions below are a shallow embedding of the two source files
`orthos2/data/models/remotepower.py` and `orthos2/utils/cobbler.py`.
Python values are modelled explicitly: `None` becomes `Option.none`,
Python exceptions become an error type threaded through `Except`, and
Python string truthiness (`if s:`) is modelled by non-emptiness checks.
External collaborators (DNS lookups, Django template rendering, the SSH
transport, exit codes of remote commands) are parameters of the embedded
functions, mirroring the boundaries described in the module docstrings.
-/

/-- Python exceptions that the embedded code can raise. -/
inductive PyErr where
  | attributeError (detail : String)
  | typeError (detail : String)
  | valueError (detail : String)
  | notImplementedError (detail : String)
  | nameError (detail : String)
  | indexError (detail : String)
  | keyError (detail : String)
  | cobblerException (detail : String)
  | validationError (msgs : List String)
deriving DecidableEq, Repr

/-- Python string truthiness for an optional string field: `None` and the
empty string are falsy. -/
def truthyOS : Option String → Bool
  | none => false
  | some s => s ≠ ""

/-- The fixed remote power hardware type enumeration
(`RemotePower.Type` in `remotepower.py`, values 0..8). -/
inductive RPType where
  | TELNET
  | SENTRY
  | ILO
  | IPMI
  | DOMINIONPX
  | LIBVIRTQEMU
  | LIBVIRTLXC
  | WEBCURL
  | S390
deriving DecidableEq, Repr

/-- `RemotePower.Status.UNKNOWN`. -/
def Status_UNKNOWN : Int := 0

/-- `RemotePower.Status.ON`. -/
def Status_ON : Int := 1

/-- `RemotePower.Status.OFF`. -/
def Status_OFF : Int := 2

/-- The mutable state of a `RemotePower` model instance together with the
attributes of the owning machine that `clean`/`save` consult.  Foreign keys
are modelled by the referenced machine's fqdn (`none` when unset). -/
structure RemotePowerState where
  type : Option RPType
  management_bmc : Option String
  remote_power_device : Option String
  /-- system type of the referenced remote power device machine:
  `true` iff its `system_id` equals `System.Type.REMOTEPOWER`. -/
  rpd_is_remotepower : Bool
  port : Option Int
  device : Option Int
  /-- truthiness of `self.machine.bmc`. -/
  machine_has_bmc : Bool
  /-- truthiness of `self.machine.hypervisor`. -/
  machine_has_hypervisor : Bool
deriving DecidableEq, Repr

/-- `RemotePower.clean` (remotepower.py lines 204-254): per hardware type,
collect a validation message for every missing required field and clear the
unused fields.  Returns the mutated state together with the collected error
messages; the Python method raises `ValidationError(errors)` at the end
exactly when the list is non-empty. -/
def clean (s : RemotePowerState) : RemotePowerState × List String :=
  match s.type with
  | some RPType.TELNET | some RPType.DOMINIONPX =>
    ({ s with device := none, management_bmc := none },
     (if s.remote_power_device = none then ["Please provide a remote power device!"] else [])
       ++ (if s.port = none then ["Please provide a port!"] else []))
  | some RPType.SENTRY | some RPType.S390 =>
    ({ s with device := none, management_bmc := none, port := none },
     if s.remote_power_device = none then ["Please provide a remote power device!"] else [])
  | some RPType.ILO | some RPType.IPMI | some RPType.WEBCURL =>
    ({ s with device := none, port := none, remote_power_device := none },
     (if s.machine_has_bmc = false then ["Please add at least one BMC to the enclosure!"] else [])
       ++ (if s.management_bmc = none then ["Please select a management BMC!"] else []))
  | some RPType.LIBVIRTQEMU | some RPType.LIBVIRTLXC =>
    ({ s with device := none, management_bmc := none, port := none,
              remote_power_device := none },
     if s.machine_has_hypervisor = false then ["No hypervisor found!"] else [])
  | none => (s, [])

/-- Result of `RemotePower.save`: either the cleaned state was persisted or a
`ValidationError` aborted the save before persistence. -/
inductive SaveResult where
  | saved (s : RemotePowerState)
  | validationError (msgs : List String)
deriving DecidableEq, Repr

/-- `RemotePower.save` (remotepower.py lines 184-202): run `clean` first
(raising with the full error list), then check the remote power device's
system type, then refuse to persist when no type is set. -/
def save (s : RemotePowerState) : SaveResult :=
  let cleaned := clean s
  if cleaned.2 ≠ [] then
    SaveResult.validationError cleaned.2
  else if cleaned.1.remote_power_device ≠ none ∧ cleaned.1.rpd_is_remotepower = false then
    SaveResult.validationError
      ["Remote power device must have system type 'REMOTEPOWER'!"]
  else
    match cleaned.1.type with
    | some _ => SaveResult.saved cleaned.1
    | none => SaveResult.validationError ["No remote power type set!"]

/-!
Power action dispatch: `RemotePower._perform`, `power_on`, `power_off`,
`get_status` (remotepower.py) and `CobblerServer.powerswitch` (cobbler.py).
-/

/-- A raised Python exception value as seen by an `except` handler: the
error itself plus the value of its `msg` attribute when the exception class
defines one (none of the exception classes in this code do). -/
structure RaisedExc where
  err : PyErr
  msgAttr : Option String
deriving DecidableEq, Repr

/-- One candidate cobbler host for a power action: its fqdn, the exit code
the remote `cobbler system <action>` command would return there, and that
command's stdout. -/
structure HostSpec where
  fqdn : String
  exitcode : Nat
  stdout : String
deriving DecidableEq, Repr

/-- `CobblerServer.powerswitch` (cobbler.py lines 230-248): build the
cobbler command and execute it over the session.  On a non-zero exit code
the raise statement first evaluates
`"... failed on {server} with {error}".format(machine=.., command=.., server=..)`,
whose template references `{error}` with no matching keyword argument, so a
`KeyError` is raised instead of the intended `CobblerException`; like every
exception class used here it has no `msg` attribute.  On exit code 0 the
command's stdout is returned. -/
def powerswitch (path action machineFqdn : String) (host : HostSpec) :
    Except RaisedExc String :=
  let cobbler_action := if action = "reboot" then "reboot" else "power" ++ action
  let command := path ++ " system " ++ cobbler_action ++ " --name  " ++ machineFqdn
  if host.exitcode ≠ 0 then
    Except.error { err := PyErr.keyError ("'error' while formatting failure of " ++ command),
                   msgAttr := none }
  else
    Except.ok host.stdout

/-- A Python value that `RemotePower.get_status` could receive from
`_perform`: `None`, an integer, or a string. -/
inductive PyResult where
  | none
  | int (n : Int)
  | str (s : String)
deriving DecidableEq, Repr

/-- The loop body of `RemotePower._perform` (remotepower.py lines 332-343):
try each cobbler server in order; a successful `powerswitch` breaks out of
the loop; a raised exception enters the `except` handler, which evaluates
`e.msg` — an attribute the caught exceptions do not have, so the handler
itself raises `AttributeError`.  Both normal exits fall off the end of the
function, returning `None`.  The second component counts the host attempts
made. -/
def performLoop (path action machineFqdn : String) :
    List HostSpec → (Except PyErr PyResult) × Nat
  | [] => (Except.ok PyResult.none, 0)
  | host :: rest =>
    match powerswitch path action machineFqdn host with
    | Except.ok _ => (Except.ok PyResult.none, 1)
    | Except.error e =>
      match e.msgAttr with
      | some _ =>
        let r := performLoop path action machineFqdn rest
        (r.1, r.2 + 1)
      | none =>
        (Except.error (PyErr.attributeError "exception object has no attribute msg"), 1)

/-- `RemotePower._perform` (remotepower.py lines 329-344): the first
statement logs `self.management_bmc.fqdn`, so a device whose
`management_bmc` is unset raises `AttributeError` before any host attempt;
otherwise the host loop runs.  The function body contains no `return`
statement, so every normal exit yields `None`. -/
def performFn (action : String) (management_bmc : Option String)
    (path machineFqdn : String) (hosts : List HostSpec) :
    (Except PyErr PyResult) × Nat :=
  match management_bmc with
  | none =>
    (Except.error (PyErr.attributeError "NoneType object has no attribute fqdn"), 0)
  | some _ => performLoop path action machineFqdn hosts

/-- `RemotePower.power_on` (remotepower.py lines 262-264). -/
def power_on (management_bmc : Option String) (path machineFqdn : String)
    (hosts : List HostSpec) : (Except PyErr PyResult) × Nat :=
  performFn "on" management_bmc path machineFqdn hosts

/-- `RemotePower.power_off` (remotepower.py lines 266-268). -/
def power_off (management_bmc : Option String) (path machineFqdn : String)
    (hosts : List HostSpec) : (Except PyErr PyResult) × Nat :=
  performFn "off" management_bmc path machineFqdn hosts

/-- Python truthiness of a `_perform` result value. -/
def pyTruthy : PyResult → Bool
  | PyResult.none => false
  | PyResult.int n => n ≠ 0
  | PyResult.str s => s ≠ ""

/-- `isinstance(result, int)`. -/
def pyIsInt : PyResult → Bool
  | PyResult.int _ => true
  | _ => false

/-- The integer payload of a result (only consulted under a `pyIsInt`
guard, matching Python's short-circuit evaluation). -/
def pyIntVal : PyResult → Int
  | PyResult.int n => n
  | _ => 0

/-- `str.lower` on the characters of a string payload (only consulted for
string results, matching Python's short-circuit evaluation). -/
def pyLowerChars : PyResult → List Char
  | PyResult.str s => s.data.map Char.toLower
  | _ => []

/-- Whether `small` occurs at the start of `l`. -/
def leadsWith : List Char → List Char → Bool
  | [], _ => true
  | _ :: _, [] => false
  | a :: as, b :: bs => a = b && leadsWith as bs

/-- Whether `small` occurs as a contiguous substring of `l`
(`str.find(small) > -1` in Python). -/
def hasSub (small : List Char) : List Char → Bool
  | [] => leadsWith small []
  | c :: rest => leadsWith small (c :: rest) || hasSub small rest

/-- The result-normalization logic of `RemotePower.get_status`
(remotepower.py lines 276-286), as a function of the raw value obtained
from `_perform('status')`. -/
def classify_status (result : PyResult) : Int :=
  if pyTruthy result && pyIsInt result then pyIntVal result
  else if pyTruthy result && hasSub "off".data (pyLowerChars result) then Status_OFF
  else if pyTruthy result && hasSub "on".data (pyLowerChars result) then Status_ON
  else Status_UNKNOWN

/-- `RemotePower.get_status` (remotepower.py lines 274-286): run the
STATUS intent through `_perform` and normalize its result. -/
def get_status (management_bmc : Option String) (path machineFqdn : String)
    (hosts : List HostSpec) : Except PyErr Int :=
  match performFn "status" management_bmc path machineFqdn hosts with
  | (Except.ok r, _) => Except.ok (classify_status r)
  | (Except.error e, _) => Except.error e

/-!
Command construction and domain synchronization (cobbler.py).
-/

/-- External collaborators of cobbler.py: Django template rendering of a
dhcp filename pattern against the machine, DNS resolution (`get_ip`,
returning a possibly empty list of addresses), and `get_hostname`. -/
structure ExtEnv where
  render : String → String
  getIpA : String → List String
  hostnameOf : String → String

/-- A machine group as consulted by `get_filename`/`get_tftp_server`. -/
structure GroupRec where
  dhcp_filename : Option String
  tftp_server : Option String
deriving DecidableEq, Repr

/-- A BMC record as consulted by `get_bmc_command`. -/
structure BmcInfo where
  fqdn : String
  mac : String
deriving DecidableEq, Repr

/-- A machine as consulted by the cobbler command builders.  Server
references hold the referenced server's fqdn. -/
structure CobblerMachine where
  fqdn : String
  ipv4 : String
  ipv6 : Option String
  dhcp_filename : Option String
  group : Option GroupRec
  arch_dhcp_filename : Option String
  arch_default_profile : Option String
  tftp_server : Option String
  domain_tftp_server : Option String
  bmc : Option BmcInfo
deriving DecidableEq, Repr

/-- `get_default_profile` (cobbler.py lines 15-19): return the
architecture's default profile when truthy, else raise `ValueError`. -/
def get_default_profile (m : CobblerMachine) : Except PyErr String :=
  match m.arch_default_profile with
  | some p =>
    if p ≠ "" then Except.ok p
    else Except.error (PyErr.valueError ("Machine " ++ m.fqdn ++ " has no default profile"))
  | none => Except.error (PyErr.valueError ("Machine " ++ m.fqdn ++ " has no default profile"))

/-- `get_tftp_server` (cobbler.py lines 21-36): machine, then group, then
domain precedence; returns the chosen server's fqdn. -/
def get_tftp_server (m : CobblerMachine) : Option String :=
  match m.tftp_server, m.group with
  | some s, _ => some s
  | none, some g =>
    match g.tftp_server with
    | some s => some s
    | none => m.domain_tftp_server
  | none, none => m.domain_tftp_server

/-- `get_filename` (cobbler.py lines 105-122): machine, then group, then
architecture precedence; group- and architecture-level patterns are
rendered as Django templates against the machine. -/
def get_filename (env : ExtEnv) (m : CobblerMachine) : Option String :=
  if truthyOS m.dhcp_filename then m.dhcp_filename
  else if (match m.group with | some g => truthyOS g.dhcp_filename | none => false) then
    (match m.group with
     | some g => some (env.render (g.dhcp_filename.getD ""))
     | none => none)
  else if truthyOS m.arch_dhcp_filename then
    some (env.render (m.arch_dhcp_filename.getD ""))
  else none

/-- `create_cobbler_options` (cobbler.py lines 39-51). -/
def create_cobbler_options (env : ExtEnv) (m : CobblerMachine) : String :=
  let tftp_server := get_tftp_server m
  let options := " --name=" ++ m.fqdn ++ " --ip-address=" ++ m.ipv4
  let options :=
    if truthyOS m.ipv6 then options ++ " --ipv6-address=" ++ m.ipv6.getD "" else options
  let options := options ++ " --interface=default --management=True --interface-master=True"
  let options :=
    if truthyOS (get_filename env m) then
      options ++ " --filename=" ++ (get_filename env m).getD ""
    else options
  match tftp_server with
  | some srv =>
    match env.getIpA srv with
    | [] => options
    | ip :: _ => options ++ " --next-server=" ++ ip
  | none => options

/-- `get_bmc_command` (cobbler.py lines 53-61): a machine without a BMC is
only logged, after which `bmc.fqdn` raises `AttributeError`; an empty DNS
result makes `get_ip(bmc.fqdn)[0]` raise `IndexError`. -/
def get_bmc_command (env : ExtEnv) (m : CobblerMachine) (path : String) :
    Except PyErr String :=
  match m.bmc with
  | none => Except.error (PyErr.attributeError "NoneType object has no attribute fqdn")
  | some b =>
    match env.getIpA b.fqdn with
    | [] => Except.error (PyErr.indexError "list index out of range")
    | ip :: _ =>
      Except.ok (path ++ " system edit --name=" ++ m.fqdn
        ++ " --interface=bmc --interface-type=bmc"
        ++ " --ip-address=\"" ++ ip ++ "\" --mac=\"" ++ b.mac
        ++ "\" --dns-name=\"" ++ env.hostnameOf b.fqdn ++ "\" ")

/-- `get_cobbler_add_command` (cobbler.py lines 89-96): a missing default
profile propagates `get_default_profile`'s `ValueError`; the subsequent
falsy-profile check is unreachable because `get_default_profile` never
returns a falsy value. -/
def get_cobbler_add_command (env : ExtEnv) (m : CobblerMachine) (path : String) :
    Except PyErr String :=
  (get_default_profile m).bind (fun profile =>
    if profile = "" then
      Except.error (PyErr.cobblerException
        ("could not determine default profile for machine " ++ m.fqdn))
    else
      Except.ok (path ++ " system add " ++ create_cobbler_options env m
        ++ " --netboot-enabled=False --profile=" ++ profile))

/-- `get_cobbler_update_command` (cobbler.py lines 99-102). -/
def get_cobbler_update_command (env : ExtEnv) (m : CobblerMachine) (path : String) :
    String :=
  path ++ " system edit " ++ create_cobbler_options env m

/-- Characters removed by `.strip(' \n\t')` in `get_machines`. -/
def stripSet : List Char := [' ', '\n', '\t']

/-- Python `str.strip(' \n\t')` on a list of characters. -/
def pyStripL (l : List Char) : List Char :=
  ((l.dropWhile (· ∈ stripSet)).reverse.dropWhile (· ∈ stripSet)).reverse

/-- Python `str.strip(' \n\t')`. -/
def pyStrip (s : String) : String := String.mk (pyStripL s.data)

/-- The command-building loop of `CobblerServer.deploy` (cobbler.py lines
150-159): for each active machine of the domain, append one `system edit`
command when its fqdn is in the controller inventory, otherwise one
`system add` command followed by a BMC-interface command when the machine
has a BMC.  Exceptions from the command builders propagate. -/
def deployCommandsLoop (env : ExtEnv) (path : String) (inv : List String) :
    List CobblerMachine → Except PyErr (List String)
  | [] => Except.ok []
  | m :: rest =>
    if m.fqdn ∈ inv then
      (deployCommandsLoop env path inv rest).map
        (fun cs => get_cobbler_update_command env m path :: cs)
    else
      (get_cobbler_add_command env m path).bind (fun a =>
        match m.bmc with
        | some _ =>
          (get_bmc_command env m path).bind (fun b =>
            (deployCommandsLoop env path inv rest).map (fun cs => a :: b :: cs))
        | none =>
          (deployCommandsLoop env path inv rest).map (fun cs => a :: cs))

/-- Inputs of one `CobblerServer.deploy` run that come from the remote
session: the bound server's fqdn, the configured cobbler path, whether
`check_path(cobbler_path, '-x')` succeeds, the exit code of
`cobbler version`, and the exit code and stdout lines of
`cobbler system list`. -/
structure DeployInput where
  server_fqdn : String
  cobbler_path : String
  installed : Bool
  version_exit : Nat
  list_exit : Nat
  list_stdout : List String
deriving Repr

/-- Whether an `Except` value is an error. -/
def exceptIsErrB {ε α : Type} : Except ε α → Bool
  | Except.error _ => true
  | Except.ok _ => false

/-- `CobblerServer.deploy` (cobbler.py lines 144-168): connect, fail fast
when the cobbler binary is absent or `cobbler version` fails, enumerate and
trim the controller inventory (raising on a non-zero exit), build the
add/update/BMC command list, execute it (non-zero exits from individual
commands are only logged), and close the session.  There is no
`try`/`finally`: `close` runs only on the normal-completion path.  The
second component records whether the session is still open when `deploy`
returns or raises. -/
def deploy (env : ExtEnv) (inp : DeployInput) (machines : List CobblerMachine) :
    Except PyErr Unit × Bool :=
  if inp.installed = false then
    (Except.error (PyErr.cobblerException ("No Cobbler service found: " ++ inp.server_fqdn)),
     true)
  else if inp.version_exit ≠ 0 then
    (Except.error (PyErr.cobblerException ("Cobbler server is not running: " ++ inp.server_fqdn)),
     true)
  else if inp.list_exit ≠ 0 then
    (Except.error (PyErr.cobblerException ("system list failed on " ++ inp.server_fqdn)),
     true)
  else
    match deployCommandsLoop env inp.cobbler_path (inp.list_stdout.map pyStrip) machines with
    | Except.error e => (Except.error e, true)
    | Except.ok _cmds => (Except.ok (), false)

/-- Python `str.replace(old, new, count)` specialized to single-character
patterns, on a character list. -/
def pyReplaceChar : List Char → Char → Char → Nat → List Char
  | [], _, _, _ => []
  | c :: rest, old, new, count =>
    if count = 0 then c :: rest
    else if c = old then new :: pyReplaceChar rest old new (count - 1)
    else c :: pyReplaceChar rest old new count

/-- `CobblerServer.profile_normalize` on a character list:
`string.replace(':', '-', 2).replace('-', ':', 1)`. -/
def profileNormalizeL (l : List Char) : List Char :=
  pyReplaceChar (pyReplaceChar l ':' '-' 2) '-' ':' 1

/-- `CobblerServer.profile_normalize` (cobbler.py lines 193-203). -/
def profile_normalize (s : String) : String :=
  String.mk (profileNormalizeL s.data)

/-!
Power-option construction (cobbler.py lines 63-87) and the credential
lookup it calls (remotepower.py lines 288-327).
-/

/-- The `RemotePower` instance attached to a machine, as consulted by
`get_power_options` and `get_raritan_options`.  Its Python attributes are
`type`, `remote_power_device`, `port`, ...; there is no attribute `re`. -/
structure RPRec where
  type : RPType
  remote_power_device : Option String
deriving DecidableEq, Repr

/-- A machine as consulted by `get_power_options`: its fqdn, its
`remotepower` (falsy when absent) and its `bmc` (fqdn, falsy when absent). -/
structure PowerMachine where
  fqdn : String
  remotepower : Option RPRec
  bmc : Option String
deriving DecidableEq, Repr

/-- Python `str + x`: concatenation when `x` is a string, `TypeError` when
`x` is `None`. -/
def pyStrAdd (a : String) (b : Option String) : Except PyErr String :=
  match b with
  | some s => Except.ok (a ++ s)
  | none => Except.error (PyErr.typeError "can only concatenate str (not NoneType) to str")

/-- `get_ipmi_options` (cobbler.py lines 86-87): assembles the
`--power-type=ipmitool --power-address=<bmc fqdn>` string into a local
variable but has no `return` statement, so the caller receives `None`;
a missing BMC makes `bmc.fqdn` raise `AttributeError`. -/
def get_ipmi_options (bmc : Option String) : Except PyErr (Option String) :=
  match bmc with
  | none => Except.error (PyErr.attributeError "NoneType object has no attribute fqdn")
  | some f =>
    let _options := " --power-type=ipmitool --power-address=" ++ f ++ " "
    Except.ok none

/-- `get_raritan_options` (cobbler.py lines 82-83): the format argument
reads `remotepower.re`, an attribute `RemotePower` does not define, so the
call raises `AttributeError` before anything else happens. -/
def get_raritan_options (_rp : RPRec) : Except PyErr (Option String) :=
  Except.error (PyErr.attributeError "RemotePower object has no attribute re")

/-- `RemotePower.get_credentials` as called from `get_power_options`
(no arguments, so `remotepower_type is None` and the typed lookups are
skipped): the default-password lookup references `ServerConfig`, a name
remotepower.py never imports, so the call raises `NameError`. -/
def get_credentials (_rp : RPRec) : Except PyErr (String × String) :=
  Except.error (PyErr.nameError "name ServerConfig is not defined")

/-- `get_power_options` (cobbler.py lines 63-78): note that the second
type test is `if`, not `elif`, so its `else` branch raises
`NotImplementedError` for every type except DOMINIONPX — including IPMI,
whose earlier `options += get_ipmi_options(...)` raises `TypeError` first
because the helper returns `None`.  After the credential call the tuple
`(password, username)` is unpacked as `username, password`, and the
function itself has no `return` statement. -/
def get_power_options (m : PowerMachine) : Except PyErr (Option String) :=
  match m.remotepower with
  | none => Except.error (PyErr.valueError ("machine " ++ m.fqdn ++ "has no remotepower"))
  | some rp =>
    let step1 : Except PyErr String :=
      if rp.type = RPType.IPMI then
        (get_ipmi_options m.bmc).bind (fun v => pyStrAdd "" v)
      else Except.ok ""
    step1.bind (fun options =>
      if rp.type = RPType.DOMINIONPX then
        ((get_raritan_options rp).bind (fun v => pyStrAdd options v)).bind (fun options2 =>
          (get_credentials rp).bind (fun cred =>
            let username := cred.1
            let password := cred.2
            let _options3 := options2 ++ " --power-user=" ++ username
              ++ " --power-pass=" ++ password ++ " "
            Except.ok none))
      else
        Except.error (PyErr.notImplementedError "Only IPMI and DOMINONPX are implemented"))

/-- Helper for C1: the TELNET/DOMINIONPX branch of `clean`. -/
theorem c1_clean_cd (s : RemotePowerState)
    (h : s.type = some RPType.TELNET ∨ s.type = some RPType.DOMINIONPX) :
    (clean s).1 = { s with device := none, management_bmc := none } ∧
    ((clean s).2 ≠ [] ↔ (s.remote_power_device = none ∨ s.port = none)) ∧
    (s.remote_power_device = none → "Please provide a remote power device!" ∈ (clean s).2) ∧
    (s.port = none → "Please provide a port!" ∈ (clean s).2) := by
  have hc : clean s = ({ s with device := none, management_bmc := none },
      (if s.remote_power_device = none then ["Please provide a remote power device!"] else [])
        ++ (if s.port = none then ["Please provide a port!"] else [])) := by
    rcases h with h | h <;> simp [clean, h]
  rw [hc]
  by_cases h1 : s.remote_power_device = none <;> by_cases h2 : s.port = none <;>
    simp [h1, h2]

/-- Helper for C1: the SENTRY/S390 branch of `clean`. -/
theorem c1_clean_ss (s : RemotePowerState)
    (h : s.type = some RPType.SENTRY ∨ s.type = some RPType.S390) :
    (clean s).1 = { s with device := none, management_bmc := none, port := none } ∧
    ((clean s).2 ≠ [] ↔ s.remote_power_device = none) ∧
    (s.remote_power_device = none → "Please provide a remote power device!" ∈ (clean s).2) := by
  have hc : clean s = ({ s with device := none, management_bmc := none, port := none },
      if s.remote_power_device = none then ["Please provide a remote power device!"] else []) := by
    rcases h with h | h <;> simp [clean, h]
  rw [hc]
  by_cases h1 : s.remote_power_device = none <;> simp [h1]

/-- Helper for C1: the ILO/IPMI/WEBCURL branch of `clean`. -/
theorem c1_clean_mgmt (s : RemotePowerState)
    (h : s.type = some RPType.ILO ∨ s.type = some RPType.IPMI ∨
         s.type = some RPType.WEBCURL) :
    (clean s).1 = { s with device := none, port := none, remote_power_device := none } ∧
    ((clean s).2 ≠ [] ↔ (s.machine_has_bmc = false ∨ s.management_bmc = none)) ∧
    (s.machine_has_bmc = false → "Please add at least one BMC to the enclosure!" ∈ (clean s).2) ∧
    (s.management_bmc = none → "Please select a management BMC!" ∈ (clean s).2) := by
  have hc : clean s = ({ s with device := none, port := none, remote_power_device := none },
      (if s.machine_has_bmc = false then ["Please add at least one BMC to the enclosure!"] else [])
        ++ (if s.management_bmc = none then ["Please select a management BMC!"] else [])) := by
    rcases h with h | h | h <;> simp [clean, h]
  rw [hc]
  by_cases h1 : s.machine_has_bmc = false <;> by_cases h2 : s.management_bmc = none <;>
    simp [h1, h2]

/-- Helper for C1: the LIBVIRT branch of `clean`. -/
theorem c1_clean_libvirt (s : RemotePowerState)
    (h : s.type = some RPType.LIBVIRTQEMU ∨ s.type = some RPType.LIBVIRTLXC) :
    (clean s).1 = { s with device := none, management_bmc := none, port := none,
                           remote_power_device := none } ∧
    ((clean s).2 ≠ [] ↔ s.machine_has_hypervisor = false) := by
  have hc : clean s = ({ s with device := none, management_bmc := none, port := none,
                                remote_power_device := none },
      if s.machine_has_hypervisor = false then ["No hypervisor found!"] else []) := by
    rcases h with h | h <;> simp [clean, h]
  rw [hc]
  by_cases h1 : s.machine_has_hypervisor = false <;> simp [h1]

/-- C1: for every hardware type, `clean` clears exactly the fields outside
that type's required set (TELNET/DOMINIONPX keep the remote power device
and port; SENTRY/S390 keep the remote power device; ILO/IPMI/WEBCURL keep
the management BMC; LIBVIRT types keep none), collects one validation
message per violated rule — every violated rule, not just the first —
rejects exactly when some required field is missing, and a rejecting
`clean` makes `save` fail with a `ValidationError` before persisting. -/
theorem c1_validate_and_normalize (s : RemotePowerState) (t : RPType)
    (h : s.type = some t) :
    ((t = RPType.TELNET ∨ t = RPType.DOMINIONPX) →
      (clean s).1 = { s with device := none, management_bmc := none } ∧
      ((clean s).2 ≠ [] ↔ (s.remote_power_device = none ∨ s.port = none)) ∧
      (s.remote_power_device = none → "Please provide a remote power device!" ∈ (clean s).2) ∧
      (s.port = none → "Please provide a port!" ∈ (clean s).2)) ∧
    ((t = RPType.SENTRY ∨ t = RPType.S390) →
      (clean s).1 = { s with device := none, management_bmc := none, port := none } ∧
      ((clean s).2 ≠ [] ↔ s.remote_power_device = none) ∧
      (s.remote_power_device = none → "Please provide a remote power device!" ∈ (clean s).2)) ∧
    ((t = RPType.ILO ∨ t = RPType.IPMI ∨ t = RPType.WEBCURL) →
      (clean s).1 = { s with device := none, port := none, remote_power_device := none } ∧
      ((clean s).2 ≠ [] ↔ (s.machine_has_bmc = false ∨ s.management_bmc = none)) ∧
      (s.machine_has_bmc = false → "Please add at least one BMC to the enclosure!" ∈ (clean s).2) ∧
      (s.management_bmc = none → "Please select a management BMC!" ∈ (clean s).2)) ∧
    ((t = RPType.LIBVIRTQEMU ∨ t = RPType.LIBVIRTLXC) →
      (clean s).1 = { s with device := none, management_bmc := none, port := none,
                             remote_power_device := none } ∧
      ((clean s).2 ≠ [] ↔ s.machine_has_hypervisor = false)) ∧
    ((clean s).2 ≠ [] → ∀ u, save s ≠ SaveResult.saved u) := by
  have hsave : (clean s).2 ≠ [] → ∀ u, save s ≠ SaveResult.saved u := by
    intro hne u
    simp only [save, if_pos hne]
    exact fun hc => SaveResult.noConfusion hc
  exact ⟨fun hor => c1_clean_cd s (by rcases hor with h' | h' <;> rw [h'] at h <;> simp [h]),
         fun hor => c1_clean_ss s (by rcases hor with h' | h' <;> rw [h'] at h <;> simp [h]),
         fun hor => c1_clean_mgmt s
           (by rcases hor with h' | h' | h' <;> rw [h'] at h <;> simp [h]),
         fun hor => c1_clean_libvirt s (by rcases hor with h' | h' <;> rw [h'] at h <;> simp [h]),
         hsave⟩

/-- A concrete TELNET device missing both required fields. -/
def c1_state : RemotePowerState :=
  { type := some RPType.TELNET, management_bmc := some "bmc.example.de",
    remote_power_device := none, rpd_is_remotepower := false,
    port := none, device := some 1,
    machine_has_bmc := false, machine_has_hypervisor := false }

/-- Witness for C1: on a TELNET device missing both required fields, both
violation messages are reported and the save is rejected. -/
theorem c1_witness :
    (clean c1_state).1 = { c1_state with device := none, management_bmc := none } ∧
    "Please provide a remote power device!" ∈ (clean c1_state).2 ∧
    "Please provide a port!" ∈ (clean c1_state).2 ∧
    ∀ u, save c1_state ≠ SaveResult.saved u := by
  have h := c1_validate_and_normalize c1_state RPType.TELNET rfl
  exact ⟨(h.1 (Or.inl rfl)).1, (h.1 (Or.inl rfl)).2.2.1 rfl,
         (h.1 (Or.inl rfl)).2.2.2 rfl, h.2.2.2.2 (by decide)⟩

/-- C2: for every hardware type other than IPMI and DOMINIONPX,
`get_power_options` fails with `NotImplementedError` (never yielding a
command string), while for IPMI and DOMINIONPX it never raises that
error. -/
theorem c2_unsupported_power_options (m : PowerMachine) (rp : RPRec)
    (h : m.remotepower = some rp) :
    (rp.type ≠ RPType.IPMI ∧ rp.type ≠ RPType.DOMINIONPX →
      get_power_options m =
        Except.error (PyErr.notImplementedError "Only IPMI and DOMINONPX are implemented")) ∧
    (rp.type = RPType.IPMI ∨ rp.type = RPType.DOMINIONPX →
      ∀ d, get_power_options m ≠ Except.error (PyErr.notImplementedError d)) := by
  constructor
  · rintro ⟨h1, h2⟩
    simp [get_power_options, h, h1, h2, Except.bind]
  · rintro (ht | ht) d
    · cases hb : m.bmc <;>
        simp [get_power_options, h, ht, get_ipmi_options, pyStrAdd, hb, Except.bind]
    · simp [get_power_options, h, ht, get_raritan_options, Except.bind]

/-- A concrete TELNET-powered machine for the C2 witness. -/
def c2_machine : PowerMachine :=
  { fqdn := "m.example.de",
    remotepower := some { type := RPType.TELNET, remote_power_device := some "pdu.example.de" },
    bmc := none }

/-- Witness for C2: on a TELNET machine, `get_power_options` raises
`NotImplementedError`. -/
theorem c2_witness :
    get_power_options c2_machine =
      Except.error (PyErr.notImplementedError "Only IPMI and DOMINONPX are implemented") :=
  (c2_unsupported_power_options c2_machine _ rfl).1 (by decide)

/-- A concrete IPMI machine with a BMC. -/
def c3_ipmi_machine : PowerMachine :=
  { fqdn := "m.example.de",
    remotepower := some { type := RPType.IPMI, remote_power_device := none },
    bmc := some "bmc.example.de" }

/-- A concrete DOMINIONPX machine with a control device. -/
def c3_px_machine : PowerMachine :=
  { fqdn := "m.example.de",
    remotepower := some { type := RPType.DOMINIONPX,
                          remote_power_device := some "pdu.example.de" },
    bmc := none }

/-- C3 evidence: `get_power_options` never produces the claimed option
string.  For IPMI, `get_ipmi_options` assembles the address string but has
no `return`, so `options += None` raises `TypeError`; for DOMINIONPX,
`get_raritan_options` reads the nonexistent attribute `remotepower.re` and
raises `AttributeError`.  Neither type ever reaches the
`--power-user`/`--power-pass` suffix, and no option string is returned. -/
theorem c3_power_options_never_built :
    get_power_options c3_ipmi_machine =
      Except.error (PyErr.typeError "can only concatenate str (not NoneType) to str") ∧
    get_power_options c3_px_machine =
      Except.error (PyErr.attributeError "RemotePower object has no attribute re") ∧
    (∀ o, get_power_options c3_ipmi_machine ≠ Except.ok o) ∧
    (∀ o, get_power_options c3_px_machine ≠ Except.ok o) := by
  have h1 : get_power_options c3_ipmi_machine =
      Except.error (PyErr.typeError "can only concatenate str (not NoneType) to str") := rfl
  have h2 : get_power_options c3_px_machine =
      Except.error (PyErr.attributeError "RemotePower object has no attribute re") := rfl
  refine ⟨h1, h2, fun o hc => ?_, fun o hc => ?_⟩
  · rw [h1] at hc
    exact Except.noConfusion hc
  · rw [h2] at hc
    exact Except.noConfusion hc

/-- C4 evidence: with three candidate cobbler hosts where the `powerswitch`
command fails (non-zero exit) on the first two and would succeed on the
third, `_perform` makes exactly one host attempt and propagates an
exception: the `except` handler's `logger.warning(..., e.msg)` evaluates
`e.msg`, an attribute the caught exception does not have, so the handler
itself raises `AttributeError` instead of logging and continuing. -/
theorem c4_failover_handler_crash :
    performFn "on" (some "bmc.example.de") "cobbler" "m.example.de"
      [{ fqdn := "h1.example.de", exitcode := 1, stdout := "" },
       { fqdn := "h2.example.de", exitcode := 1, stdout := "" },
       { fqdn := "h3.example.de", exitcode := 0, stdout := "ok" }] =
      (Except.error (PyErr.attributeError "exception object has no attribute msg"), 1) := by
  rfl

/-- Modelled from the spec: the per-machine command block of domain sync —
one update command when the machine's name is in the controller inventory,
otherwise one add command followed by a BMC-interface command exactly when
the machine has a BMC. -/
def machineCmdsSpec (env : ExtEnv) (path : String) (inv : List String)
    (m : CobblerMachine) : Except PyErr (List String) :=
  if m.fqdn ∈ inv then Except.ok [get_cobbler_update_command env m path]
  else
    (get_cobbler_add_command env m path).bind (fun a =>
      match m.bmc with
      | some _ => (get_bmc_command env m path).map (fun b => [a, b])
      | none => Except.ok [a])

/-- Error-propagating concatenation of per-element blocks. -/
def exceptFlatMap {α β ε : Type} (f : α → Except ε (List β)) :
    List α → Except ε (List β)
  | [] => Except.ok []
  | a :: as => (f a).bind (fun b => (exceptFlatMap f as).map (fun bs => b ++ bs))

/-- When an error-propagating concatenation succeeds, every element's block
succeeded. -/
theorem exceptFlatMap_ok_forall {α β ε : Type} (f : α → Except ε (List β)) :
    ∀ (ms : List α) (cs : List β), exceptFlatMap f ms = Except.ok cs →
      ∀ m ∈ ms, ∃ ys, f m = Except.ok ys := by
  intro ms
  induction ms with
  | nil => intro cs _ m hm; simp at hm
  | cons a as ih =>
    intro cs h m hm
    simp only [exceptFlatMap] at h
    cases hf : f a with
    | error e => rw [hf] at h; simp [Except.bind] at h
    | ok ys =>
      rw [hf] at h
      cases hrest : exceptFlatMap f as with
      | error e => rw [hrest] at h; simp [Except.bind, Except.map] at h
      | ok cs' =>
        rcases List.mem_cons.mp hm with rfl | hmem
        · exact ⟨ys, hf⟩
        · exact ih cs' hrest m hmem

/-- The deploy command loop is exactly the concatenation of the
per-machine blocks. -/
theorem deployCommandsLoop_eq_flatMap (env : ExtEnv) (path : String)
    (inv : List String) :
    ∀ ms, deployCommandsLoop env path inv ms =
      exceptFlatMap (machineCmdsSpec env path inv) ms := by
  intro ms
  induction ms with
  | nil => rfl
  | cons m rest ih =>
    simp only [deployCommandsLoop, exceptFlatMap, machineCmdsSpec]
    by_cases hm : m.fqdn ∈ inv
    · rw [if_pos hm, if_pos hm, ih]
      cases hrest : exceptFlatMap (machineCmdsSpec env path inv) rest <;>
        simp [Except.bind, Except.map]
    · rw [if_neg hm, if_neg hm]
      cases ha : get_cobbler_add_command env m path with
      | error e => simp [Except.bind]
      | ok a =>
        simp only [Except.bind]
        cases hb : m.bmc with
        | none =>
          rw [ih]
          cases hrest : exceptFlatMap (machineCmdsSpec env path inv) rest <;>
            simp [Except.bind, Except.map]
        | some bi =>
          cases hbc : get_bmc_command env m path with
          | error e => simp [Except.bind, Except.map]
          | ok b =>
            rw [ih]
            cases hrest : exceptFlatMap (machineCmdsSpec env path inv) rest <;>
              simp [Except.bind, Except.map]

/-- C5: during domain sync, relative to the trimmed controller inventory,
every active machine contributes exactly one `system edit` command when its
name is in the inventory, and otherwise exactly one `system add` command
carrying `--netboot-enabled=False` and the resolved default profile,
followed by exactly one BMC-interface command iff the machine has a BMC;
a machine needing an add without a resolvable default profile makes the
whole command construction raise. -/
theorem c5_deploy_commands (env : ExtEnv) (path : String) (lines : List String)
    (machines : List CobblerMachine) :
    (deployCommandsLoop env path (lines.map pyStrip) machines =
      exceptFlatMap (machineCmdsSpec env path (lines.map pyStrip)) machines) ∧
    (∀ m, m.fqdn ∈ lines.map pyStrip →
      machineCmdsSpec env path (lines.map pyStrip) m =
        Except.ok [get_cobbler_update_command env m path]) ∧
    (∀ m, ∃ o, get_cobbler_update_command env m path = path ++ " system edit " ++ o) ∧
    (∀ m pr, get_default_profile m = Except.ok pr →
      ∃ o, get_cobbler_add_command env m path =
        Except.ok (path ++ " system add " ++ o ++ " --netboot-enabled=False --profile=" ++ pr)) ∧
    (∀ m, m.fqdn ∉ lines.map pyStrip → m.bmc = none →
      machineCmdsSpec env path (lines.map pyStrip) m =
        (get_cobbler_add_command env m path).map (fun a => [a])) ∧
    (∀ m bi b, m.fqdn ∉ lines.map pyStrip → m.bmc = some bi →
      get_bmc_command env m path = Except.ok b →
      machineCmdsSpec env path (lines.map pyStrip) m =
        (get_cobbler_add_command env m path).map (fun a => [a, b])) ∧
    (∀ cs, deployCommandsLoop env path (lines.map pyStrip) machines = Except.ok cs →
      ∀ m ∈ machines, m.fqdn ∉ lines.map pyStrip →
        ∃ pr, get_default_profile m = Except.ok pr) := by
  refine ⟨deployCommandsLoop_eq_flatMap env path _ machines, ?_, ?_, ?_, ?_, ?_, ?_⟩
  · intro m hm
    simp [machineCmdsSpec, hm]
  · intro m
    exact ⟨create_cobbler_options env m, rfl⟩
  · intro m pr hpr
    refine ⟨create_cobbler_options env m, ?_⟩
    have hne : pr ≠ "" := by
      unfold get_default_profile at hpr
      cases hap : m.arch_default_profile with
      | none => rw [hap] at hpr; exact Except.noConfusion hpr
      | some p =>
        rw [hap] at hpr
        dsimp only at hpr
        by_cases hp : p ≠ ""
        · rw [if_pos hp] at hpr
          cases hpr
          exact hp
        · rw [if_neg hp] at hpr
          exact Except.noConfusion hpr
    simp [get_cobbler_add_command, hpr, Except.bind, hne]
  · intro m hnin hb
    simp only [machineCmdsSpec, if_neg hnin, hb]
    cases ha : get_cobbler_add_command env m path <;> simp [Except.bind, Except.map]
  · intro m bi b hnin hb hbc
    simp only [machineCmdsSpec, if_neg hnin, hb, hbc]
    cases ha : get_cobbler_add_command env m path <;> simp [Except.bind, Except.map, hbc]
  · intro cs hok m hmem hnin
    rw [deployCommandsLoop_eq_flatMap] at hok
    obtain ⟨ys, hys⟩ := exceptFlatMap_ok_forall _ machines cs hok m hmem
    simp only [machineCmdsSpec, if_neg hnin] at hys
    cases ha : get_cobbler_add_command env m path with
    | error e => rw [ha] at hys; simp [Except.bind] at hys
    | ok a =>
      unfold get_cobbler_add_command at ha
      cases hp : get_default_profile m with
      | error e => rw [hp] at ha; simp [Except.bind] at ha
      | ok pr => exact ⟨pr, rfl⟩

/-- Environment for the C5 witness: DNS resolves everything to 10.1.0.5. -/
def c5_env : ExtEnv := { render := id, getIpA := fun _ => ["10.1.0.5"], hostnameOf := id }

/-- Active machine present in the controller inventory. -/
def c5_host_a : CobblerMachine :=
  { fqdn := "host-a", ipv4 := "10.0.0.1", ipv6 := none, dhcp_filename := none,
    group := none, arch_dhcp_filename := none, arch_default_profile := some "x86_64:prof",
    tftp_server := none, domain_tftp_server := none, bmc := none }

/-- Active machine absent from the controller inventory, with a BMC. -/
def c5_host_b : CobblerMachine :=
  { fqdn := "host-b", ipv4 := "10.0.0.2", ipv6 := none, dhcp_filename := none,
    group := none, arch_dhcp_filename := none, arch_default_profile := some "x86_64:prof",
    tftp_server := none, domain_tftp_server := none,
    bmc := some { fqdn := "bmc-b", mac := "aa:bb:cc:dd:ee:ff" } }

/-- Witness for C5, on the spec's example: inventory line "host-a \n" and
active machines host-a (present) and host-b (absent, with a BMC): host-a
yields exactly its update command, host-b yields its add command followed
by its BMC command. -/
theorem c5_witness :
    c5_host_a.fqdn ∈ (["host-a \n"].map pyStrip) ∧
    machineCmdsSpec c5_env "cobbler" (["host-a \n"].map pyStrip) c5_host_a =
      Except.ok [get_cobbler_update_command c5_env c5_host_a "cobbler"] ∧
    machineCmdsSpec c5_env "cobbler" (["host-a \n"].map pyStrip) c5_host_b =
      (get_cobbler_add_command c5_env c5_host_b "cobbler").map
        (fun a => [a,
          "cobbler system edit --name=host-b --interface=bmc --interface-type=bmc --ip-address=\"10.1.0.5\" --mac=\"aa:bb:cc:dd:ee:ff\" --dns-name=\"bmc-b\" "]) := by
  have h := c5_deploy_commands c5_env "cobbler" ["host-a \n"] [c5_host_a, c5_host_b]
  exact ⟨by decide, h.2.1 c5_host_a (by decide),
         h.2.2.2.2.2.1 c5_host_b { fqdn := "bmc-b", mac := "aa:bb:cc:dd:ee:ff" } _
           (by decide) rfl rfl⟩

/-- C6 (amended): the session is still open when `deploy` finishes exactly
when `deploy` raises — it is closed only on the normal-completion exit
path, and left open on the fail-fast paths (binary absent, liveness check
failure), the inventory-enumeration failure path, and command-construction
failures. -/
theorem c6_session_closed_iff_no_error (env : ExtEnv) (inp : DeployInput)
    (machines : List CobblerMachine) :
    (deploy env inp machines).2 = exceptIsErrB (deploy env inp machines).1 := by
  unfold deploy
  by_cases h1 : inp.installed = false
  · simp [h1, exceptIsErrB]
  · simp only [if_neg h1]
    by_cases h2 : inp.version_exit ≠ 0
    · simp [h2, exceptIsErrB]
    · simp only [if_neg h2]
      by_cases h3 : inp.list_exit ≠ 0
      · simp [h3, exceptIsErrB]
      · simp only [if_neg h3]
        cases deployCommandsLoop env inp.cobbler_path (inp.list_stdout.map pyStrip)
            machines <;> simp [exceptIsErrB]

/-- Environment for the C6 counterexample. -/
def c6_env : ExtEnv := { render := id, getIpA := fun _ => [], hostnameOf := id }

/-- Deploy input whose controller binary check fails. -/
def c6_input : DeployInput :=
  { server_fqdn := "cobbler.example.de", cobbler_path := "/usr/bin/cobbler",
    installed := false, version_exit := 0, list_exit := 0, list_stdout := [] }

/-- C6 counterexample: on the fail-fast path where the controller binary is
absent, the session has been opened and `deploy` raises `CobblerException`
with the session still open (second component `true`), contradicting the
claim that the session is closed on every exit path on which it was
opened. -/
theorem c6_counterexample :
    deploy c6_env c6_input [] =
      (Except.error (PyErr.cobblerException "No Cobbler service found: cobbler.example.de"),
       true) := by
  rfl

/-- Python `replace` with count 0 changes nothing. -/
theorem pyReplaceChar_zero (l : List Char) (old new : Char) :
    pyReplaceChar l old new 0 = l := by
  cases l with
  | nil => rfl
  | cons c rest => simp [pyReplaceChar]

/-- Python `replace` skips over a block that does not contain the pattern. -/
theorem pyReplaceChar_skip (old new : Char) (n : Nat) :
    ∀ (l r : List Char), old ∉ l →
      pyReplaceChar (l ++ r) old new n = l ++ pyReplaceChar r old new n := by
  intro l
  induction l with
  | nil => intro r _; rfl
  | cons c rest ih =>
    intro r h
    have hne : ¬ (c = old) := fun hco => h (by rw [hco]; exact List.mem_cons_self _ _)
    by_cases hn : n = 0
    · subst hn; rw [pyReplaceChar_zero, pyReplaceChar_zero]
    · simp only [List.cons_append, pyReplaceChar, if_neg hn, if_neg hne]
      exact congrArg (fun x => c :: x) (ih r (fun hm => h (List.mem_cons_of_mem _ hm)))

/-- Python `replace` with a positive count rewrites a leading occurrence. -/
theorem pyReplaceChar_hit (old new : Char) (t : List Char) (n : Nat) (hn : n ≠ 0) :
    pyReplaceChar (old :: t) old new n = new :: pyReplaceChar t old new (n - 1) := by
  simp [pyReplaceChar, hn]

/-- C7 counterexample: on "a:b:c:d" — within the claimed class of inputs
with at least two colons — the third colon survives (the output has two
colons, not only the first), and a second application changes the string
again, refuting idempotence. -/
theorem c7_counterexample :
    profile_normalize "a:b:c:d" = "a:b-c:d" ∧
    ((profile_normalize "a:b:c:d").data.count ':') = 2 ∧
    profile_normalize (profile_normalize "a:b:c:d") ≠ profile_normalize "a:b:c:d" := by
  refine ⟨rfl, rfl, ?_⟩
  intro hc
  have : ("a:b-c-d" : String) = "a:b-c:d" := hc
  simp at this

/-- C7 (amended): for inputs of the exact shape `arch:distro:profile` —
a dash-free, colon-free arch and colon-free distro and profile —
`profile_normalize` keeps the first colon and turns the second into a
dash, a second application leaves such an output unchanged, and the
spec's example maps as stated. -/
theorem c7_amended_profile_normalize (a b p : List Char)
    (ha1 : ':' ∉ a) (ha2 : '-' ∉ a) (hb : ':' ∉ b) (hp : ':' ∉ p) :
    profileNormalizeL (a ++ (':' :: (b ++ (':' :: p)))) = a ++ (':' :: (b ++ ('-' :: p))) ∧
    profileNormalizeL (a ++ (':' :: (b ++ ('-' :: p)))) = a ++ (':' :: (b ++ ('-' :: p))) ∧
    profile_normalize "x86_64:SLE-12-SP4-Server-LATEST:install" =
      "x86_64:SLE-12-SP4-Server-LATEST-install" := by
  have h21 : (2 : Nat) - 1 = 1 := rfl
  have h11 : (1 : Nat) - 1 = 0 := rfl
  have hbp : (':' : Char) ∉ b ++ ('-' :: p) := by
    intro hm
    rcases List.mem_append.mp hm with hm | hm
    · exact hb hm
    · rcases List.mem_cons.mp hm with hm | hm
      · exact absurd hm (by decide)
      · exact hp hm
  refine ⟨?_, ?_, by decide⟩
  · unfold profileNormalizeL
    rw [pyReplaceChar_skip ':' '-' 2 a _ ha1,
        pyReplaceChar_hit ':' '-' _ 2 (by decide), h21,
        pyReplaceChar_skip ':' '-' 1 b _ hb,
        pyReplaceChar_hit ':' '-' p 1 (by decide), h11,
        pyReplaceChar_zero,
        pyReplaceChar_skip '-' ':' 1 a _ ha2,
        pyReplaceChar_hit '-' ':' _ 1 (by decide), h11,
        pyReplaceChar_zero]
  · unfold profileNormalizeL
    rw [pyReplaceChar_skip ':' '-' 2 a _ ha1,
        pyReplaceChar_hit ':' '-' _ 2 (by decide), h21]
    rw [show pyReplaceChar (b ++ ('-' :: p)) ':' '-' 1 = b ++ ('-' :: p) from by
          have := pyReplaceChar_skip ':' '-' 1 (b ++ ('-' :: p)) [] hbp
          simpa [pyReplaceChar] using this]
    rw [pyReplaceChar_skip '-' ':' 1 a _ ha2,
        pyReplaceChar_hit '-' ':' _ 1 (by decide), h11,
        pyReplaceChar_zero]

/-- Witness for C7's amended statement at a = "a", b = "b", p = "c". -/
theorem c7_amended_witness :
    profileNormalizeL ['a', ':', 'b', ':', 'c'] = ['a', ':', 'b', '-', 'c'] :=
  (c7_amended_profile_normalize ['a'] ['b'] ['c'] (by decide) (by decide) (by decide)
    (by decide)).1

/-- C8: the `get_status` normalization of the raw STATUS result: an
integer result is returned as-is as the Status value; a string result is
classified case-insensitively by substring — containing "off" gives OFF,
else containing "on" gives ON, else UNKNOWN — including the spec's four
concrete examples. -/
theorem c8_status_classification :
    (∀ n : Int, classify_status (PyResult.int n) = n) ∧
    (∀ s : String, classify_status (PyResult.str s) =
      (if hasSub "off".data (s.data.map Char.toLower) then Status_OFF
       else if hasSub "on".data (s.data.map Char.toLower) then Status_ON
       else Status_UNKNOWN)) ∧
    classify_status (PyResult.int 2) = Status_OFF ∧
    classify_status (PyResult.str "Power is Off") = Status_OFF ∧
    classify_status (PyResult.str "system ON") = Status_ON ∧
    classify_status (PyResult.str "unreachable") = Status_UNKNOWN := by
  refine ⟨?_, ?_, by decide, by decide, by decide, by decide⟩
  · intro n
    by_cases hn : n = 0
    · subst hn
      decide
    · simp [classify_status, pyTruthy, pyIsInt, pyIntVal, hn]
  · intro s
    by_cases hs : s = ""
    · subst hs
      decide
    · simp [classify_status, pyTruthy, pyIsInt, pyLowerChars, hs]

/-- Helper for C9: every normal return of the `_perform` host loop carries
the value `None`, since the function body has no `return` statement. -/
theorem performLoop_ok_none (path action machineFqdn : String) :
    ∀ (hs : List HostSpec) (r : PyResult),
      (performLoop path action machineFqdn hs).1 = Except.ok r → r = PyResult.none := by
  intro hs
  induction hs with
  | nil =>
    intro r h
    cases h
    rfl
  | cons host rest ih =>
    intro r h
    simp only [performLoop] at h
    cases hps : powerswitch path action machineFqdn host with
    | ok out =>
      rw [hps] at h
      cases h
      rfl
    | error e =>
      rw [hps] at h
      dsimp only at h
      cases hma : e.msgAttr with
      | some v =>
        rw [hma] at h
        dsimp only at h
        exact ih r h
      | none =>
        rw [hma] at h
        dsimp only at h
        exact Except.noConfusion h

/-- C9: `_perform` contains no `return` statement, so whenever it returns
rather than raises its value is `None`, and `get_status` therefore yields
UNKNOWN whenever it does not raise. -/
theorem c9_get_status_always_unknown (action : String)
    (management_bmc : Option String) (path machineFqdn : String)
    (hosts : List HostSpec) :
    (∀ r, (performFn action management_bmc path machineFqdn hosts).1 = Except.ok r →
      r = PyResult.none) ∧
    (∀ v, get_status management_bmc path machineFqdn hosts = Except.ok v →
      v = Status_UNKNOWN) := by
  have hfn : ∀ (act : String) (r : PyResult),
      (performFn act management_bmc path machineFqdn hosts).1 = Except.ok r →
        r = PyResult.none := by
    intro act r h
    cases hb : management_bmc with
    | none =>
      rw [hb] at h
      exact Except.noConfusion h
    | some f =>
      rw [hb] at h
      exact performLoop_ok_none path act machineFqdn hosts r h
  refine ⟨hfn action, ?_⟩
  intro v h
  unfold get_status at h
  cases hperf : performFn "status" management_bmc path machineFqdn hosts with
  | mk res cnt =>
    rw [hperf] at h
    cases hres : res with
    | ok r =>
      rw [hres] at h
      dsimp only at h
      have hr := hfn "status" r (by rw [hperf, hres])
      cases h
      rw [hr]
      rfl
    | error e =>
      rw [hres] at h
      dsimp only at h
      exact Except.noConfusion h

/-- Witness for C9: a host whose status command succeeds and prints
"it is ON"; `get_status` still returns UNKNOWN because the stdout is
dropped by `_perform`. -/
theorem c9_witness :
    get_status (some "bmc.example.de") "cobbler" "m.example.de"
      [{ fqdn := "h1.example.de", exitcode := 0, stdout := "it is ON" }] =
      Except.ok 0 ∧ (0 : Int) = Status_UNKNOWN := by
  constructor
  · rfl
  · exact (c9_get_status_always_unknown "status" (some "bmc.example.de") "cobbler"
      "m.example.de"
      [{ fqdn := "h1.example.de", exitcode := 0, stdout := "it is ON" }]).2 0 (by rfl)

/-- C10: validation forces `management_bmc` empty for every
control-device-based or libvirt hardware type, and every power action on
such a validated device raises `AttributeError` on
`self.management_bmc.fqdn` before any host attempt. -/
theorem c10_power_actions_crash_without_bmc (s : RemotePowerState) (t : RPType)
    (h : s.type = some t)
    (ht : t = RPType.TELNET ∨ t = RPType.SENTRY ∨ t = RPType.DOMINIONPX ∨
          t = RPType.S390 ∨ t = RPType.LIBVIRTQEMU ∨ t = RPType.LIBVIRTLXC)
    (path machineFqdn : String) (hosts : List HostSpec) :
    (clean s).1.management_bmc = none ∧
    power_on (clean s).1.management_bmc path machineFqdn hosts =
      (Except.error (PyErr.attributeError "NoneType object has no attribute fqdn"), 0) ∧
    power_off (clean s).1.management_bmc path machineFqdn hosts =
      (Except.error (PyErr.attributeError "NoneType object has no attribute fqdn"), 0) ∧
    get_status (clean s).1.management_bmc path machineFqdn hosts =
      Except.error (PyErr.attributeError "NoneType object has no attribute fqdn") := by
  have hbmc : (clean s).1.management_bmc = none := by
    rcases ht with h' | h' | h' | h' | h' | h' <;> subst h' <;> simp [clean, h]
  refine ⟨hbmc, ?_, ?_, ?_⟩ <;> rw [hbmc] <;> rfl

/-- A validated S390 device: `clean` has forced `management_bmc` empty. -/
def c10_state : RemotePowerState :=
  { type := some RPType.S390, management_bmc := some "bmc.example.de",
    remote_power_device := some "pdu.example.de", rpd_is_remotepower := true,
    port := none, device := none, machine_has_bmc := true,
    machine_has_hypervisor := false }

/-- Witness for C10 at a concrete S390 device. -/
theorem c10_witness :
    (clean c10_state).1.management_bmc = none ∧
    power_on (clean c10_state).1.management_bmc "cobbler" "m.example.de" [] =
      (Except.error (PyErr.attributeError "NoneType object has no attribute fqdn"), 0) := by
  have h := c10_power_actions_crash_without_bmc c10_state RPType.S390 rfl
    (by decide) "cobbler" "m.example.de" []
  exact ⟨h.1, h.2.1⟩
